import Mathlib

/-!
Shallow embedding of the scrollable-viewport subsystem of the egui
immediate-mode UI framework, as implemented in
`egui/src/containers/scroll_area.rs`, together with the touch-position
helper of `crates/eframe/src/web/input.rs`.

Modelling conventions:

* `f32` scalars are modelled as exact rationals (`ℚ`).  Rust `f32::max`,
  `f32::min`, `at_least`, `at_most` and `clamp` become `max`, `min` and
  min-max composition on `ℚ`.
* A possibly-infinite width (`f32::INFINITY` for a scroll area placed in an
  unbounded parent) is modelled as `Option ℚ`, with `none` standing for the
  infinite width; `Option.isSome` models `f32::is_finite`.
* Rust `as usize` on a non-negative float is `Int.toNat` of the integer
  value (saturating at zero for negative values, as the Rust cast does).
* Division by zero in `ℚ` yields `0`; no claim below exercises a division
  by zero of the source.
* Side effects that never touch the persisted scroll `State` (painting the
  track and handle, the hover animation, repaint requests, cursor
  advancement) are omitted from the state-transition model.
-/

namespace Egui

/-- Two-dimensional vector with rational coordinates, modelling the `Vec2`
of the framework's math layer (`egui::math::Vec2`). -/
structure Vec2 where
  x : ℚ
  y : ℚ
deriving DecidableEq

/-- The zero vector, `Vec2::ZERO`. -/
def Vec2.ZERO : Vec2 := ⟨0, 0⟩

/-- Componentwise subtraction of vectors (`Vec2 - Vec2`). -/
def Vec2.sub (a b : Vec2) : Vec2 := ⟨a.x - b.x, a.y - b.y⟩

/-- Scalar multiplication (`f32 * Vec2`). -/
def Vec2.smul (k : ℚ) (v : Vec2) : Vec2 := ⟨k * v.x, k * v.y⟩

/-- Modelled from the spec: the magnitude `|velocity|` of a 2-D vector
(`Vec2::length`, whose source lives in the math layer, outside the files
under study).  The Euclidean magnitude is irrational in general; every
vector whose magnitude the specified algorithms inspect is axis-aligned
(`velocity = (0, v)` in the kinetic-decay scenarios, or the zero vector),
and on axis-aligned vectors the exact magnitude is `|x| + |y|`, which is
the rational form used here. -/
def Vec2.length (v : Vec2) : ℚ := |v.x| + |v.y|

/-- Modelled from the spec: the unit vector in the direction of `v`
(`Vec2::normalized`, source outside the files under study), i.e. `v`
divided by its magnitude; exact for axis-aligned vectors under the
magnitude model above. -/
def Vec2.normalized (v : Vec2) : Vec2 := ⟨v.x / v.length, v.y / v.length⟩

/-- Two-dimensional point with rational coordinates (`Pos2`). -/
structure Pos2 where
  x : ℚ
  y : ℚ
deriving DecidableEq

/-- Per-identity persisted scroll state (`struct State` of
`scroll_area.rs`): offset, scrollbar-visibility flag, kinetic velocity,
and the drag anchor (`scroll_start_offset_from_top`). -/
structure State where
  offset : Vec2
  show_scroll : Bool
  vel : Vec2
  scroll_start_offset_from_top : Option ℚ
deriving DecidableEq

/-- Default scroll state (`State::default`). -/
def State.default : State :=
  { offset := Vec2.ZERO
    show_scroll := false
    vel := Vec2.ZERO
    scroll_start_offset_from_top := none }

/-- Modelled from the spec: linear interpolation `lerp(a..=b, t)` of the
framework's math layer (source outside the files under study). -/
def lerp (a b t : ℚ) : ℚ := a + t * (b - a)

/-- Modelled from the spec: `remap(x, x0..=x1, y0..=y1)` linearly remaps
`x` from the source range to the target range (math layer, source outside
the files under study). -/
def remap (x x0 x1 y0 y1 : ℚ) : ℚ := lerp y0 y1 ((x - x0) / (x1 - x0))

/-- Modelled from the spec: `remap_clamp` clamps `x` into the source range
and then remaps linearly (math layer, source outside the files under
study); used with source range `[0, content_height]`, whose lower end
never exceeds its upper end. -/
def remapClamp (x x0 x1 y0 y1 : ℚ) : ℚ :=
  if x ≤ x0 then y0
  else if x1 ≤ x then y1
  else remap x x0 x1 y0 y1

/-- Rust `f32::clamp(x, lo, hi)`: clamp `x` into `[lo, hi]`. -/
def clampQ (x lo hi : ℚ) : ℚ := min (max x lo) hi

/-- Stop speed of kinetic scrolling, pixels per second
(`scroll_area.rs` line 361). -/
def stop_speed : ℚ := 20

/-- Friction coefficient of kinetic scrolling, pixels per second squared
(`scroll_area.rs` line 362). -/
def friction_coeff : ℚ := 1000

/-- One frame of the kinetic velocity decay (`scroll_area.rs` lines
360-369, velocity component): `friction = friction_coeff * dt`; if
`friction > |vel|` or `|vel| < stop_speed` the velocity snaps to zero,
otherwise `friction` is subtracted in the direction of the velocity. -/
def kineticStep (dt : ℚ) (v : Vec2) : Vec2 :=
  let friction := friction_coeff * dt
  if v.length < friction ∨ v.length < stop_speed then Vec2.ZERO
  else v.sub (Vec2.smul friction v.normalized)

/-- Everything the once-per-frame *end* phase (`Prepared::end`,
`scroll_area.rs` lines 208-393) reads besides the persisted `State`:
the geometry resolved by *begin*, the measured content size, and the
frame's interaction oracle values (pointer, drag responses, shared wheel
delta, elapsed time). -/
structure Input where
  /-- Snapshot of the persisted state carried by `Prepared`. -/
  state : State
  /-- The `always_show_scroll` configuration flag. -/
  alwaysShowScroll : Bool
  /-- Top-left corner of the rectangle allocated by *begin* (`rect.min`). -/
  rectMin : Pos2
  /-- Width of the allocated rectangle; `none` models `f32::INFINITY`
  (scroll area inside an infinitely wide parent). -/
  rectWidth : Option ℚ
  /-- Height of the allocated rectangle (`rect.height()`). -/
  rectHeight : ℚ
  /-- Measured size of the drawn content (`content_ui.min_size()`). -/
  contentSize : Vec2
  /-- Top of the content rectangle (`content_ui.min_rect().top()`). -/
  contentTop : ℚ
  /-- Height of the content clip rectangle (`content_ui.clip_rect().height()`). -/
  clipHeight : ℚ
  /-- Vertical item spacing (`ui.spacing().item_spacing.y`). -/
  itemSpacingY : ℚ
  /-- Scroll bar width (`ui.spacing().scroll_bar_width`). -/
  scrollBarWidth : ℚ
  /-- The one-shot scroll-to target taken from the frame state:
  target y coordinate and alignment factor (`align.to_factor()`). -/
  scrollTarget : Option (ℚ × ℚ)
  /-- The shared per-frame wheel scroll delta (`frame_state().scroll_delta`). -/
  scrollDelta : Vec2
  /-- Whether the pointer is over the (width-reconciled) rectangle
  (`ui.rect_contains_pointer(rect)`). -/
  pointerOverRect : Bool
  /-- Pointer position of an active click-or-drag interaction on the
  scrollbar track (`response.interact_pointer_pos()`). -/
  interactPointerPos : Option Pos2
  /-- Whether the scrollbar response reports an active drag
  (`response.dragged`). -/
  responseDragged : Bool
  /-- Whether the drag-to-pan interaction over the content rectangle is
  active (`content_response.dragged()`). -/
  contentDragged : Bool
  /-- Frame pointer movement (`input.pointer.delta().y`). -/
  pointerDeltaY : ℚ
  /-- Measured pointer velocity (`input.pointer.velocity()`). -/
  pointerVel : Vec2
  /-- Elapsed time of the frame (`input.unstable_dt`). -/
  dt : ℚ
deriving DecidableEq

/-- Observable outcome of the *end* phase: the state written back to the
persistent store, the value left in the shared wheel-delta cell, and the
reconciled rectangle width. -/
structure EndResult where
  state : State
  scrollDelta : Vec2
  width : ℚ
deriving DecidableEq

/-- Scroll-to-target reconciliation (`scroll_area.rs` lines 221-235): a
taken one-shot target replaces `offset.y` by the alignment-adjusted
position plus a spacing nudge. -/
def scrollTargetStep (target : Option (ℚ × ℚ))
    (contentTop clipHeight itemSpacingY : ℚ) (st : State) : State :=
  match target with
  | none => st
  | some (scrollY, centerFactor) =>
    let offsetY := scrollY - lerp contentTop (contentTop + clipHeight) centerFactor
    let spacing := itemSpacingY * remap centerFactor 0 1 (-1) 1
    { st with offset := { st.offset with y := offsetY + spacing } }

/-- Width reconciliation (`scroll_area.rs` lines 237-242): a finite
allocated width grows to fit the content, an infinite one adopts the
content width exactly. -/
def reconciledWidth (rectWidth : Option ℚ) (contentWidth : ℚ) : ℚ :=
  match rectWidth with
  | some w => max w contentWidth
  | none => contentWidth

/-- Wheel-delta arbitration (`scroll_area.rs` lines 249-261): when the
pointer is over the rectangle and consuming the shared delta would move
within bounds, apply it to `offset.y` and zero the shared cell; otherwise
leave both untouched.  Returns the updated state and the new value of the
shared delta cell. -/
def wheelStep (pointerOverRect : Bool) (maxOffset : ℚ) (scrollDelta : Vec2)
    (st : State) : State × Vec2 :=
  if pointerOverRect then
    let scrollingUp := 0 < st.offset.y ∧ 0 < scrollDelta.y
    let scrollingDown := st.offset.y < maxOffset ∧ scrollDelta.y < 0
    if scrollingUp ∨ scrollingDown then
      ({ st with offset := { st.offset with y := st.offset.y - scrollDelta.y } },
       Vec2.ZERO)
    else (st, scrollDelta)
  else (st, scrollDelta)

/-- Mapping from content space into track space (`scroll_area.rs` lines
274-275): `remap_clamp` over `[0, content_height] -> [top, bottom]`. -/
def fromContent (contentH top bottom y : ℚ) : ℚ :=
  remapClamp y 0 contentH top bottom

/-- Hard-boundary clamp at the end of scrollbar handling (`scroll_area.rs`
lines 305-311): clamp `offset.y` to at least `0` and then to at most
`max_offset`; if the value changed, zero the velocity. -/
def scrollbarClampStep (maxOffset : ℚ) (st : State) : State :=
  let y := min (max st.offset.y 0) maxOffset
  { st with
    offset := { st.offset with y := y }
    vel := if y ≠ st.offset.y then Vec2.ZERO else st.vel }

/-- Scrollbar hit-test and drag handling (`scroll_area.rs` lines 266-350,
state-relevant part): on an active pointer interaction, lazily record the
drag anchor (grab offset when the pointer is inside the handle, otherwise
the offset obtained by centering the handle under the pointer, clamped to
the track) and move `offset.y` to follow the pointer; with no interaction,
clear the anchor.  Afterwards apply the hard-boundary clamp.  Returns the
updated state and whether a scrollbar drag is engaged
(`response.dragged`). -/
def scrollbarStep (left right top bottom contentH rectHeight maxOffset : ℚ)
    (interactPointerPos : Option Pos2) (responseDragged : Bool)
    (st : State) : State × Bool :=
  let handleTop := fromContent contentH top bottom st.offset.y
  let handleBottom := fromContent contentH top bottom (st.offset.y + rectHeight)
  let st :=
    match interactPointerPos with
    | some p =>
      let anchor :=
        match st.scroll_start_offset_from_top with
        | some a => a
        | none =>
          if left ≤ p.x ∧ p.x ≤ right ∧ handleTop ≤ p.y ∧ p.y ≤ handleBottom then
            p.y - handleTop
          else
            let handleHeight := handleBottom - handleTop
            let handleTopPosAtBottom := bottom - handleHeight
            let newHandleTop := clampQ (p.y - handleHeight / 2) top handleTopPosAtBottom
            p.y - newHandleTop
      { st with
        scroll_start_offset_from_top := some anchor
        offset := { st.offset with y := remap (p.y - anchor) top bottom 0 contentH } }
    | none => { st with scroll_start_offset_from_top := none }
  (scrollbarClampStep maxOffset st, responseDragged)

/-- Drag-to-pan and kinetic decay (`scroll_area.rs` lines 352-376,
state-relevant part): while the content drag is active the offset follows
the pointer and the velocity is sampled; otherwise one frame of friction
decay runs (velocity exactly as `kineticStep`; the offset advances only
when the velocity did not snap to zero). -/
def dragPanStep (dt pointerDeltaY : ℚ) (pointerVel : Vec2)
    (contentDragged : Bool) (st : State) : State :=
  if contentDragged then
    { st with
      offset := { st.offset with y := st.offset.y - pointerDeltaY }
      vel := pointerVel }
  else
    let friction := friction_coeff * dt
    if st.vel.length < friction ∨ st.vel.length < stop_speed then
      { st with vel := Vec2.ZERO }
    else
      let v := st.vel.sub (Vec2.smul friction st.vel.normalized)
      { st with vel := v, offset := { st.offset with y := st.offset.y - v.y * dt } }

/-- Final clamp and commit (`scroll_area.rs` lines 388-390): clamp
`offset.y` first against `content_height - rect_height`, then against `0`,
and record the scrollbar-visibility flag. -/
def finalCommit (contentH rectHeight : ℚ) (shown : Bool) (st : State) : State :=
  { st with
    offset := { st.offset with y := max (min st.offset.y (contentH - rectHeight)) 0 }
    show_scroll := shown }

/-- The full *end* phase (`Prepared::end`, `scroll_area.rs` lines
208-393), as a function from the frame's inputs to the persisted state,
the value left in the shared wheel-delta cell, and the reconciled
width. -/
def endModel (i : Input) : EndResult :=
  let st := scrollTargetStep i.scrollTarget i.contentTop i.clipHeight i.itemSpacingY i.state
  let width := reconciledWidth i.rectWidth i.contentSize.x
  let contentIsTooSmall : Bool := decide (i.rectHeight < i.contentSize.y)
  let maxOffset := i.contentSize.y - i.rectHeight
  let ws := wheelStep i.pointerOverRect maxOffset i.scrollDelta st
  let st := ws.1
  let shown : Bool := contentIsTooSmall || i.alwaysShowScroll
  let right := i.rectMin.x + width + i.scrollBarWidth * (1 / 4)
  let left := right - i.scrollBarWidth
  let top := i.rectMin.y
  let bottom := i.rectMin.y + i.rectHeight
  let sb :=
    if shown then
      scrollbarStep left right top bottom i.contentSize.y i.rectHeight maxOffset
        i.interactPointerPos i.responseDragged st
    else (st, false)
  let st := sb.1
  let dragging := sb.2
  let st :=
    if contentIsTooSmall && !dragging then
      dragPanStep i.dt i.pointerDeltaY i.pointerVel i.contentDragged st
    else st
  { state := finalCommit i.contentSize.y i.rectHeight shown st
    scrollDelta := ws.2
    width := width }

/-- Content height set by the row virtualizer (`scroll_area.rs` line 174):
`(row_stride * num_rows - spacing).at_least(0)` with
`row_stride = row_height + spacing`. -/
def showRowsContentHeight (rowHeight spacing : ℚ) (numRows : ℕ) : ℚ :=
  max ((rowHeight + spacing) * (numRows : ℚ) - spacing) 0

/-- First visible row of the row virtualizer (`scroll_area.rs` lines
176-178): `(viewport.min.y / row_stride).floor().at_least(0.0) as usize`. -/
def minRowOf (stride vmin : ℚ) : ℕ :=
  (max ⌊vmin / stride⌋ 0).toNat

/-- One-past-the-last visible row of the row virtualizer (`scroll_area.rs`
lines 179-180): `(viewport.max.y / row_stride).ceil() as usize + 1`, then
`.at_most(num_rows)`.  The `as usize` cast saturates a negative value at
zero before the `+ 1`. -/
def maxRowOf (stride vmax : ℚ) (numRows : ℕ) : ℕ :=
  min ((⌈vmax / stride⌉).toNat + 1) numRows

/-- Modelled from the spec: the automatic identity generation of the child
drawing surface (`Ui::skip_ahead_auto_ids`, whose source is outside the
files under study).  Elements drawn into a surface receive consecutive
automatically-derived identities starting from a base counter;
`show_rows` advances the counter by `min_row` before the callback runs
(`scroll_area.rs` line 189), and the callback then draws rows `min_row`,
`min_row + 1`, ... in order, each consuming one identity.  The identity
of the element at logical row `r` (for `min_row ≤ r`) is therefore the
base counter plus the skip plus the row's position in the iteration. -/
def autoIdOfRow (base minRow r : ℕ) : ℕ :=
  base + minRow + (r - minRow)

/-- A single browser touch, as read by the web input layer
(`web_sys::Touch`): its stable identifier and client coordinates. -/
structure Touch where
  identifier : ℤ
  clientX : ℚ
  clientY : ℚ
deriving DecidableEq

/-- Position of a touch in canvas space
(`crates/eframe/src/web/input.rs`, `pos_from_touch`): client coordinates
relative to the canvas rectangle, divided by the zoom factor. -/
def pos_from_touch (rectLeft rectTop zoom : ℚ) (t : Touch) : Pos2 :=
  ⟨(t.clientX - rectLeft) / zoom, (t.clientY - rectTop) / zoom⟩

/-- The logical pointer position derived from a touch event
(`crates/eframe/src/web/input.rs` lines 33-57, `pos_from_touch_event`):
prefer the previously tracked touch if it is still in the event's touch
list, otherwise the first touch of the list; if a touch is used, the
tracked id is updated to it; with no touches at all, the default (zero)
position is returned and the tracked id is left unchanged.  Returns the
position and the new tracked id. -/
def pos_from_touch_event (rectLeft rectTop zoom : ℚ) (touches : List Touch)
    (touchIdForPos : Option ℤ) : Pos2 × Option ℤ :=
  let touchForPos :=
    match touchIdForPos with
    | some tid => touches.find? (fun (t : Touch) => t.identifier == tid)
    | none => none
  match touchForPos.orElse (fun _ => touches.head?) with
  | none => (⟨0, 0⟩, touchIdForPos)
  | some t => (pos_from_touch rectLeft rectTop zoom t, some t.identifier)

/-- Specification-level restatement of the touch-position query, following
the words of the claim: the position of the previously tracked touch when
that touch is still present in the list, otherwise the position of the
first touch, and the default zero position when the list is empty; the
tracked id follows the touch that was used. -/
def posFromTouchEventSpec (rectLeft rectTop zoom : ℚ) (touches : List Touch)
    (touchIdForPos : Option ℤ) : Pos2 × Option ℤ :=
  let tracked :=
    match touchIdForPos with
    | some tid => touches.find? (fun (t : Touch) => t.identifier == tid)
    | none => none
  match tracked with
  | some t => (pos_from_touch rectLeft rectTop zoom t, some t.identifier)
  | none =>
    match touches with
    | [] => (⟨0, 0⟩, touchIdForPos)
    | t :: _ => (pos_from_touch rectLeft rectTop zoom t, some t.identifier)

/-- A frame input with every interaction source inactive: no scroll
target, pointer not over the region, no scrollbar interaction, no drag,
zero wheel delta, default state; content of size 50 in a 100-high
rectangle. -/
def baseInput : Input :=
  { state := State.default
    alwaysShowScroll := false
    rectMin := ⟨0, 0⟩
    rectWidth := some 100
    rectHeight := 100
    contentSize := ⟨50, 50⟩
    contentTop := 0
    clipHeight := 100
    itemSpacingY := 0
    scrollBarWidth := 8
    scrollTarget := none
    scrollDelta := Vec2.ZERO
    pointerOverRect := false
    interactPointerPos := none
    responseDragged := false
    contentDragged := false
    pointerDeltaY := 0
    pointerVel := Vec2.ZERO
    dt := 1 / 60 }

/-- Concrete frame input for the invariant claim: content (height 50)
shorter than the viewport (height 100) with a stale positive offset. -/
def c1Input : Input :=
  { baseInput with state := { State.default with offset := ⟨0, 5⟩ } }

/-- Concrete frame input on which the final commit clamp changes
`offset.y` while a nonzero velocity is stored: content (height 50) fits in
the viewport (height 100), the stale offset is 5, the stored velocity is
`(0, 300)`, and no interaction is active. -/
def c6Input : Input :=
  { baseInput with
    state := { State.default with offset := ⟨0, 5⟩, vel := ⟨0, 300⟩ } }

/-- Concrete frame input in which a stale drag anchor is present while the
scrollbar is not shown (content fits) and no pointer interaction is
active. -/
def c8Input : Input :=
  { baseInput with
    state := { State.default with scroll_start_offset_from_top := some 5 } }

/-- Concrete frame input with overflowing content (height 200 against a
100-high rectangle), a mid-range offset, zero velocity and no
interaction. -/
def c9Input : Input :=
  { baseInput with
    state := { State.default with offset := ⟨0, 40⟩ }
    contentSize := ⟨50, 200⟩ }

/-- C7: during width reconciliation in *end*, a finite allocated width
yields `max(rect_width, content_width)` (never below either), an infinite
allocated width yields the content width exactly, finite width 100 with
content width 150 yields 150, and *end* reports exactly the reconciled
width. -/
theorem width_reconciliation :
    (∀ w c : ℚ, reconciledWidth (some w) c = max w c ∧
      w ≤ reconciledWidth (some w) c ∧ c ≤ reconciledWidth (some w) c) ∧
    (∀ c : ℚ, reconciledWidth none c = c) ∧
    reconciledWidth (some 100) 150 = 150 ∧
    (∀ i : Input, (endModel i).width = reconciledWidth i.rectWidth i.contentSize.x) := by
  refine ⟨fun w c => ⟨rfl, le_max_left w c, le_max_right w c⟩, fun c => rfl, ?_, fun i => rfl⟩
  show max (100 : ℚ) 150 = 150
  norm_num

/-- C4: the automatically-derived identity of the element at logical row
`r` does not depend on which window `[min_row, max_row)` the virtualizer
materializes, because the identity counter is advanced by `min_row` before
the callback runs. -/
theorem auto_id_row_stable (base m₁ m₂ r : ℕ) (h₁ : m₁ ≤ r) (h₂ : m₂ ≤ r) :
    autoIdOfRow base m₁ r = autoIdOfRow base m₂ r := by
  unfold autoIdOfRow
  omega

/-- Witness for C4 at the spec's instance: windows starting at rows 5 and
8 assign the same identity to logical row 10. -/
theorem auto_id_row_stable_witness :
    autoIdOfRow 0 5 10 = autoIdOfRow 0 8 10 :=
  auto_id_row_stable 0 5 8 10 (by decide) (by decide)

/-- C2: the shared wheel delta is applied to `offset.y` exactly when the
pointer is over the rectangle and the move stays within bounds
(`offset.y > 0` with an upward delta, or `offset.y < max_offset` with a
downward delta); exactly then the shared delta cell is zeroed, and
otherwise both the state and the cell are left unchanged (so a saturated
inner region leaves the delta for its parent). -/
theorem wheel_delta_arbitration (pointerOver : Bool) (maxOffset : ℚ)
    (delta : Vec2) (st : State) :
    (pointerOver = true ∧
        ((0 < st.offset.y ∧ 0 < delta.y) ∨ (st.offset.y < maxOffset ∧ delta.y < 0)) →
      wheelStep pointerOver maxOffset delta st =
        ({ st with offset := { st.offset with y := st.offset.y - delta.y } }, Vec2.ZERO)) ∧
    (¬(pointerOver = true ∧
        ((0 < st.offset.y ∧ 0 < delta.y) ∨ (st.offset.y < maxOffset ∧ delta.y < 0))) →
      wheelStep pointerOver maxOffset delta st = (st, delta)) := by
  constructor
  · rintro ⟨hp, hc⟩
    subst hp
    simp only [wheelStep, if_true]
    rw [if_pos hc]
  · intro h
    cases hp : pointerOver with
    | false => simp [wheelStep]
    | true =>
      have hc : ¬((0 < st.offset.y ∧ 0 < delta.y) ∨
          (st.offset.y < maxOffset ∧ delta.y < 0)) := fun hc => h ⟨hp, hc⟩
      simp only [wheelStep, if_true]
      rw [if_neg hc]

/-- Witness for C2: with the pointer over the region, offset 10 and an
upward delta 5 are consumed and the cell is zeroed; at offset 0 the same
upward delta is not consumed and the cell keeps its value. -/
theorem wheel_delta_arbitration_witness :
    wheelStep true 100 ⟨0, 5⟩ { State.default with offset := ⟨0, 10⟩ } =
      ({ State.default with offset := ⟨0, 5⟩ }, Vec2.ZERO) ∧
    wheelStep true 100 ⟨0, 5⟩ State.default = (State.default, ⟨0, 5⟩) := by
  constructor
  · have h := (wheel_delta_arbitration true 100 ⟨0, 5⟩
      { State.default with offset := ⟨0, 10⟩ }).1 ⟨rfl, Or.inl ⟨by norm_num, by norm_num⟩⟩
    rw [h]
    norm_num [State.default]
  · refine (wheel_delta_arbitration true 100 ⟨0, 5⟩ State.default).2 ?_
    rintro ⟨-, ⟨h1, -⟩ | ⟨-, h2⟩⟩
    · simp [State.default, Vec2.ZERO] at h1
    · norm_num at h2

/-- Helper: one decay frame at `dt = 1/60` on an upward axis-aligned
velocity that is still at least the stop speed subtracts the friction
`1000 / 60 = 50 / 3`. -/
theorem kineticStep_axis (v : ℚ) (hv : 20 ≤ v) :
    kineticStep (1 / 60) ⟨0, v⟩ = ⟨0, v - 50 / 3⟩ := by
  have hv0 : (0 : ℚ) < v := by linarith
  have hlen : Vec2.length ⟨0, v⟩ = v := by
    simp [Vec2.length, abs_of_nonneg hv0.le]
  simp only [kineticStep]
  split_ifs with h
  · rw [hlen] at h
    norm_num [friction_coeff, stop_speed] at h
    rcases h with h | h <;> linarith
  · simp only [Vec2.sub, Vec2.smul, Vec2.normalized, hlen, friction_coeff, Vec2.mk.injEq]
    constructor
    · norm_num
    · rw [div_self hv0.ne.symm]
      ring

/-- Helper: one decay frame at `dt = 1/60` on an axis-aligned velocity
below the stop speed snaps the velocity to zero. -/
theorem kineticStep_snap (v : ℚ) (h0 : 0 ≤ v) (h : v < 20) :
    kineticStep (1 / 60) ⟨0, v⟩ = Vec2.ZERO := by
  have hlen : Vec2.length ⟨0, v⟩ = v := by
    simp [Vec2.length, abs_of_nonneg h0]
  simp only [kineticStep]
  rw [if_pos]
  exact Or.inr (by rw [hlen]; simpa [stop_speed] using h)

/-- Helper: as long as the velocity stays at or above the stop speed, `n`
decay frames subtract `n` times the per-frame friction. -/
theorem kineticStep_iterate_axis (n : ℕ) (v : ℚ)
    (h : ∀ k : ℕ, k < n → 20 ≤ v - k * (50 / 3)) :
    (kineticStep (1 / 60))^[n] ⟨0, v⟩ = ⟨0, v - n * (50 / 3)⟩ := by
  induction n generalizing v with
  | zero => simp
  | succ m ih =>
    have h0 : 20 ≤ v := by simpa using h 0 (Nat.succ_pos m)
    rw [Function.iterate_succ_apply, kineticStep_axis v h0, ih (v - 50 / 3) ?later]
    · simp only [Vec2.mk.injEq, true_and]
      push_cast
      ring
    case later =>
      intro k hk
      have hks := h (k + 1) (by omega)
      push_cast at hks ⊢
      linarith

/-- C5: iterating the kinetic decay step at `dt = 1/60` from velocity
`(0, 500)` with friction coefficient 1000 and stop speed 20 reaches
exactly `Vec2::ZERO` after at most 30 steps and stays there. -/
theorem kinetic_decay_terminates (n : ℕ) (hn : 30 ≤ n) :
    (kineticStep (1 / 60))^[n] ⟨0, 500⟩ = Vec2.ZERO := by
  have h29 : (kineticStep (1 / 60))^[29] (⟨0, 500⟩ : Vec2) = ⟨0, 50 / 3⟩ := by
    rw [kineticStep_iterate_axis 29 500 ?cond]
    · norm_num
    case cond =>
      intro k hk
      have hk28 : (k : ℚ) ≤ 28 := by exact_mod_cast (by omega : k ≤ 28)
      have : (k : ℚ) * (50 / 3) ≤ 28 * (50 / 3) :=
        mul_le_mul_of_nonneg_right hk28 (by norm_num)
      linarith
  have h30 : (kineticStep (1 / 60))^[30] (⟨0, 500⟩ : Vec2) = Vec2.ZERO := by
    rw [show (30 : ℕ) = 29 + 1 from rfl, Function.iterate_succ_apply', h29,
      kineticStep_snap (50 / 3) (by norm_num) (by norm_num)]
  have hfix : kineticStep (1 / 60) Vec2.ZERO = Vec2.ZERO :=
    kineticStep_snap 0 le_rfl (by norm_num)
  obtain ⟨k, rfl⟩ : ∃ k, n = k + 30 := ⟨n - 30, by omega⟩
  rw [Function.iterate_add_apply, h30, Function.iterate_fixed hfix]

/-- Witness for C5: the bound 30 itself drives the velocity to zero. -/
theorem kinetic_decay_terminates_witness :
    (kineticStep (1 / 60))^[30] ⟨0, 500⟩ = Vec2.ZERO :=
  kinetic_decay_terminates 30 (by decide)

/-- C10: the touch-position query equals its specification: it returns
the position of the previously tracked touch when that touch is still in
the event's list, otherwise the position of the first touch, and the
default zero position (without failing) when the list is empty; whenever a
touch is used the tracked id is updated to that touch. -/
theorem pos_from_touch_event_spec_eq (rectLeft rectTop zoom : ℚ)
    (touches : List Touch) (tracked : Option ℤ) :
    pos_from_touch_event rectLeft rectTop zoom touches tracked =
      posFromTouchEventSpec rectLeft rectTop zoom touches tracked := by
  unfold pos_from_touch_event posFromTouchEventSpec
  cases tracked with
  | none => cases touches <;> simp [Option.orElse]
  | some tid =>
    dsimp only
    cases hf : touches.find? (fun (t : Touch) => t.identifier == tid) with
    | none => cases touches <;> simp [Option.orElse]
    | some t => simp [Option.orElse]

/-- C3 counterexample: at row stride 24 (row height 20, spacing 4), a
viewport whose bottom is at `-48` and 10 rows, the code's upper row bound
is `min(10, toNat(ceil(-48 / 24)) + 1) = 1`, while the claimed formula
`min(num_rows, ceil(viewport.max.y / stride) + 1)` evaluates to `-1`. -/
theorem max_row_formula_cx :
    (maxRowOf 24 (-48) 10 : ℤ) ≠ min (10 : ℤ) (⌈(-48 : ℚ) / 24⌉ + 1) ∧
    maxRowOf 24 (-48) 10 = 1 := by
  have hceil : ⌈(-48 : ℚ) / 24⌉ = -2 := by
    have h : ((-48 : ℚ) / 24) = ((-2 : ℤ) : ℚ) := by norm_num
    rw [h, Int.ceil_intCast]
  have hmax : maxRowOf 24 (-48) 10 = 1 := by
    unfold maxRowOf
    rw [hceil]
    rfl
  refine ⟨?_, hmax⟩
  rw [hmax, hceil]
  norm_num

/-- C3 amended: for a positive row stride and a viewport whose bottom edge
is non-negative (every viewport the scroll area produces from a
non-negative offset), `show_rows` sets the content height to
`max(0, stride * num_rows - spacing)` and hands the callback the range
with `min_row = max(0, floor(viewport.min.y / stride))` and
`max_row = min(num_rows, ceil(viewport.max.y / stride) + 1)`; for a
negative viewport bottom the code instead saturates the `ceil` at zero
before adding one. -/
theorem show_rows_row_range (rowHeight spacing vmin vmax : ℚ) (numRows : ℕ)
    (hstride : 0 < rowHeight + spacing) (hvmax : 0 ≤ vmax) :
    showRowsContentHeight rowHeight spacing numRows =
      max 0 ((rowHeight + spacing) * numRows - spacing) ∧
    (minRowOf (rowHeight + spacing) vmin : ℤ) =
      max 0 ⌊vmin / (rowHeight + spacing)⌋ ∧
    (maxRowOf (rowHeight + spacing) vmax numRows : ℤ) =
      min (numRows : ℤ) (⌈vmax / (rowHeight + spacing)⌉ + 1) := by
  refine ⟨by rw [showRowsContentHeight, max_comm], ?_, ?_⟩
  · unfold minRowOf
    rw [Int.toNat_of_nonneg (le_max_right _ 0), max_comm]
  · unfold maxRowOf
    have hc : 0 ≤ ⌈vmax / (rowHeight + spacing)⌉ :=
      Int.ceil_nonneg (div_nonneg hvmax hstride.le)
    push_cast [Int.toNat_of_nonneg hc]
    rw [min_comm]

/-- Witness for the amended C3 at the spec's instance: row height 20,
spacing 4, viewport `[0, 400]`, 10000 rows. -/
theorem show_rows_row_range_witness :
    showRowsContentHeight 20 4 10000 = max 0 ((20 + 4) * ((10000 : ℕ) : ℚ) - 4) ∧
    (minRowOf (20 + 4) 0 : ℤ) = max 0 ⌊(0 : ℚ) / (20 + 4)⌋ ∧
    (maxRowOf (20 + 4) 400 10000 : ℤ) =
      min ((10000 : ℕ) : ℤ) (⌈(400 : ℚ) / (20 + 4)⌉ + 1) :=
  show_rows_row_range 20 4 0 400 10000 (by norm_num) (by norm_num)

/-- Helper: the committed offset is the final double clamp of whatever the
frame computed. -/
theorem finalCommit_offset_bounds (c r : ℚ) (sh : Bool) (st : State) :
    0 ≤ (finalCommit c r sh st).offset.y ∧
    (finalCommit c r sh st).offset.y ≤ max 0 (c - r) ∧
    (c ≤ r → (finalCommit c r sh st).offset.y = 0) := by
  unfold finalCommit
  refine ⟨le_max_right _ 0, ?_, ?_⟩
  · exact max_le (le_trans (min_le_right _ _) (le_max_right 0 _)) (le_max_left 0 _)
  · intro hcr
    have h1 : min st.offset.y (c - r) ≤ 0 := le_trans (min_le_right _ _) (by linarith)
    simp [max_eq_right h1]

/-- C1: after *end* completes, the persisted offset satisfies
`0 ≤ offset.y ≤ max(0, content_height - rect_height)`, and in particular
content shorter than the viewport pins the offset to exactly zero. -/
theorem end_offset_invariant (i : Input) :
    0 ≤ (endModel i).state.offset.y ∧
    (endModel i).state.offset.y ≤ max 0 (i.contentSize.y - i.rectHeight) ∧
    (i.contentSize.y ≤ i.rectHeight → (endModel i).state.offset.y = 0) :=
  finalCommit_offset_bounds i.contentSize.y i.rectHeight _ _

/-- Witness for C1: with content height 50 in a 100-high rectangle and a
stale offset of 5, the committed offset is exactly zero. -/
theorem end_offset_invariant_witness :
    (endModel c1Input).state.offset.y = 0 :=
  (end_offset_invariant c1Input).2.2 (by norm_num [c1Input, baseInput])

/-- C6 counterexample: a frame whose final commit clamp changes
`offset.y` (from 5 to 0, content height 50 against rectangle height 100)
while the stored velocity `(0, 300)` is written back unchanged — the
final commit clamp does not reset the velocity. -/
theorem final_clamp_keeps_velocity_cx :
    c6Input.state.offset.y = 5 ∧
    (endModel c6Input).state.offset.y = 0 ∧
    (endModel c6Input).state.vel = ⟨0, 300⟩ ∧
    (⟨0, 300⟩ : Vec2) ≠ Vec2.ZERO := by
  refine ⟨by norm_num [c6Input, baseInput], ?_, ?_, by simp [Vec2.ZERO]⟩ <;>
    norm_num [endModel, c6Input, baseInput, State.default, scrollTargetStep,
      reconciledWidth, wheelStep, scrollbarStep, scrollbarClampStep, dragPanStep,
      finalCommit, Vec2.ZERO]

/-- C6 amended: whenever the hard-boundary clamp at the end of scrollbar
handling changes `offset.y`, the velocity is reset to exactly
`Vec2::ZERO` at that step (the final commit clamp, by the counterexample,
does not do this). -/
theorem scrollbar_clamp_resets_velocity (maxOffset : ℚ) (st : State)
    (h : (scrollbarClampStep maxOffset st).offset.y ≠ st.offset.y) :
    (scrollbarClampStep maxOffset st).vel = Vec2.ZERO := by
  simp only [scrollbarClampStep] at h ⊢
  rw [if_pos h]

/-- Witness for the amended C6: clamping an offset of `-5` up to `0`
resets a velocity of `(0, 7)` to zero. -/
theorem scrollbar_clamp_resets_velocity_witness :
    (scrollbarClampStep 10 { State.default with offset := ⟨0, -5⟩, vel := ⟨0, 7⟩ }).vel =
      Vec2.ZERO :=
  scrollbar_clamp_resets_velocity 10 _
    (by norm_num [scrollbarClampStep, State.default])

/-- Helper: the hard-boundary clamp never touches the drag anchor. -/
theorem scrollbarClampStep_anchor (m : ℚ) (st : State) :
    (scrollbarClampStep m st).scroll_start_offset_from_top =
      st.scroll_start_offset_from_top := rfl

/-- C8 counterexample: a frame with no active pointer interaction on the
scrollbar in which the stale drag anchor `some 5` is not cleared, because
the scrollbar is not shown (content fits); the claim's "cleared on every
frame with no active pointer interaction" fails here. -/
theorem anchor_not_cleared_when_hidden_cx :
    c8Input.interactPointerPos = none ∧ c8Input.responseDragged = false ∧
    (endModel c8Input).state.scroll_start_offset_from_top = some 5 := by
  refine ⟨rfl, rfl, ?_⟩
  norm_num [endModel, c8Input, baseInput, State.default, scrollTargetStep,
    reconciledWidth, wheelStep, scrollbarStep, scrollbarClampStep, dragPanStep,
    finalCommit, Vec2.ZERO]

/-- C8 amended: within scrollbar handling, the drag anchor is cleared to
`none` on every frame without an active pointer interaction, and on the
first frame of a drag with no anchor recorded it is set to
`pointer_y - handle_top` when the pointer is inside the handle and
otherwise to `pointer_y - clamp(pointer_y - handle_height / 2, track_top,
track_bottom - handle_height)`; when the scrollbar is not shown (the
counterexample) the anchor is left unchanged instead. -/
theorem drag_anchor_lifecycle (left right top bottom contentH rectHeight maxOffset : ℚ)
    (ipp : Option Pos2) (rd : Bool) (st : State) :
    (ipp = none →
      (scrollbarStep left right top bottom contentH rectHeight maxOffset
        ipp rd st).1.scroll_start_offset_from_top = none) ∧
    (∀ p : Pos2, ipp = some p → st.scroll_start_offset_from_top = none →
      (scrollbarStep left right top bottom contentH rectHeight maxOffset
        ipp rd st).1.scroll_start_offset_from_top =
      some (if left ≤ p.x ∧ p.x ≤ right ∧
              fromContent contentH top bottom st.offset.y ≤ p.y ∧
              p.y ≤ fromContent contentH top bottom (st.offset.y + rectHeight) then
          p.y - fromContent contentH top bottom st.offset.y
        else
          p.y - clampQ
            (p.y - (fromContent contentH top bottom (st.offset.y + rectHeight) -
              fromContent contentH top bottom st.offset.y) / 2)
            top
            (bottom - (fromContent contentH top bottom (st.offset.y + rectHeight) -
              fromContent contentH top bottom st.offset.y)))) := by
  constructor
  · rintro rfl
    simp [scrollbarStep, scrollbarClampStep_anchor]
  · rintro p rfl hanchor
    simp [scrollbarStep, scrollbarClampStep_anchor, hanchor]

/-- Witness for the amended C8: with a track `[0, 100]`, content height
200 and rectangle height 100, no interaction clears the anchor, and a
first drag frame at pointer `(5, 50)` (inside the handle `[0, 50]`)
records anchor `50`. -/
theorem drag_anchor_lifecycle_witness :
    (scrollbarStep 0 10 0 100 200 100 100 none false State.default).1.scroll_start_offset_from_top
      = none ∧
    (scrollbarStep 0 10 0 100 200 100 100 (some ⟨5, 50⟩) false
      State.default).1.scroll_start_offset_from_top = some 50 := by
  constructor
  · exact (drag_anchor_lifecycle 0 10 0 100 200 100 100 none false State.default).1 rfl
  · have h := (drag_anchor_lifecycle 0 10 0 100 200 100 100 (some ⟨5, 50⟩) false
      State.default).2 ⟨5, 50⟩ rfl rfl
    rw [h]
    norm_num [fromContent, remapClamp, remap, lerp, clampQ, State.default, Vec2.ZERO]

/-- Helper: the composite of the scrollbar hard-boundary clamp and the
final commit clamp is idempotent. -/
theorem shown_clamp_idem (M y : ℚ) :
    max (min (min (max (max (min (min (max y 0) M) M) 0) 0) M) M) 0
      = max (min (min (max y 0) M) M) 0 := by
  rcases le_total M 0 with h | h
  · have h1 : ∀ a : ℚ, max (min (min (max a 0) M) M) 0 = 0 := by
      intro a
      rw [min_eq_right (h.trans (le_max_right a 0)), min_self, max_eq_right h]
    rw [h1 y]
    exact h1 0
  · have hz0 : (0 : ℚ) ≤ max (min (min (max y 0) M) M) 0 := le_max_right _ _
    have hzM : max (min (min (max y 0) M) M) 0 ≤ M := max_le (min_le_right _ _) h
    rw [max_eq_left hz0, min_eq_left hzM, min_eq_left hzM, max_eq_left hz0]

/-- Helper: the final commit clamp alone is idempotent. -/
theorem final_clamp_idem (M y : ℚ) :
    max (min (max (min y M) 0) M) 0 = max (min y M) 0 := by
  rcases le_total M 0 with h | h
  · rw [max_eq_right ((min_le_right y M).trans h), min_eq_right h, max_eq_right h]
  · have hz0 : (0 : ℚ) ≤ max (min y M) 0 := le_max_right _ _
    have hzM : max (min y M) 0 ≤ M := max_le (min_le_right _ _) h
    rw [min_eq_left hzM, max_eq_left hz0]

set_option maxHeartbeats 3200000 in
/-- Helper: closed form of the state persisted by a quiescent frame (no
scroll target, pointer elsewhere, no interactions, zero velocity): the
offset passes through the clamp pipeline of the frame, the velocity stays
zero, and the anchor is cleared exactly when the scrollbar is shown. -/
theorem endModel_quiescent (i : Input)
    (hTarget : i.scrollTarget = none) (hOver : i.pointerOverRect = false)
    (hIpp : i.interactPointerPos = none) (hRd : i.responseDragged = false)
    (hCd : i.contentDragged = false) (hVel : i.state.vel = Vec2.ZERO) :
    (endModel i).state =
      { offset := ⟨i.state.offset.x,
          if (decide (i.rectHeight < i.contentSize.y) || i.alwaysShowScroll) = true then
            max (min (min (max i.state.offset.y 0) (i.contentSize.y - i.rectHeight))
              (i.contentSize.y - i.rectHeight)) 0
          else
            max (min i.state.offset.y (i.contentSize.y - i.rectHeight)) 0⟩
        show_scroll := decide (i.rectHeight < i.contentSize.y) || i.alwaysShowScroll
        vel := Vec2.ZERO
        scroll_start_offset_from_top :=
          if (decide (i.rectHeight < i.contentSize.y) || i.alwaysShowScroll) = true then
            none
          else i.state.scroll_start_offset_from_top } := by
  by_cases hsmall : i.rectHeight < i.contentSize.y <;>
    cases halways : i.alwaysShowScroll <;>
    norm_num [endModel, scrollTargetStep, wheelStep, scrollbarStep,
      scrollbarClampStep, dragPanStep, finalCommit, hTarget, hOver, hIpp, hRd,
      hCd, hVel, hsmall, halways, Vec2.length, Vec2.ZERO, stop_speed,
      friction_coeff]

/-- C9: running *end* twice on identical inputs with no new interaction
(no scroll target, pointer not over the region, no scrollbar interaction,
no drag, zero velocity) is a fixed point: the state persisted by the
second run equals the state persisted by the first. -/
theorem end_idempotent (i : Input)
    (hTarget : i.scrollTarget = none) (hOver : i.pointerOverRect = false)
    (hIpp : i.interactPointerPos = none) (hRd : i.responseDragged = false)
    (hCd : i.contentDragged = false) (hVel : i.state.vel = Vec2.ZERO) :
    (endModel { i with state := (endModel i).state }).state = (endModel i).state := by
  have h1 := endModel_quiescent i hTarget hOver hIpp hRd hCd hVel
  have hVel2 : (endModel i).state.vel = Vec2.ZERO := by rw [h1]
  have h2 := endModel_quiescent { i with state := (endModel i).state }
    hTarget hOver hIpp hRd hCd hVel2
  rw [h2, h1]
  dsimp only
  split_ifs with hs
  · simp only [State.mk.injEq, Vec2.mk.injEq]
    exact ⟨⟨trivial, shown_clamp_idem _ _⟩, trivial, trivial, trivial⟩
  · simp only [State.mk.injEq, Vec2.mk.injEq]
    exact ⟨⟨trivial, final_clamp_idem _ _⟩, trivial, trivial, trivial⟩

/-- Witness for C9 at a concrete quiescent frame: content height 200,
rectangle height 100, offset 40. -/
theorem end_idempotent_witness :
    (endModel { c9Input with state := (endModel c9Input).state }).state =
      (endModel c9Input).state :=
  end_idempotent c9Input rfl rfl rfl rfl rfl rfl

end Egui
